import Mathlib

/-!
Verification of `src/codegen/optimized-compilation-info.h` (V8's
`OptimizedCompilationInfo`, the compilation job descriptor of the optimizing
compiler pipeline).

The repository contains only the header: inline member functions are
translated directly from it.  Member functions whose bodies live in the
missing `.cc` translation unit (the two constructors, `AbortOptimization`,
`RetryOptimization`, `AddInlinedFunction`, `set_persistent_handles`,
`FlagGetIsValid`, `FlagSetIsValid`) are modelled from the specification and
marked as such in their doc comments.

Modelling conventions:
  - GC handles (`Handle<T>`, `JavaScriptFrame*`, `PersistentHandles`) are
    modelled as opaque numeric identities; `std::unique_ptr` as `Option Nat`
    (`none` = null), so that `std::move` leaving a null pointer behind is
    explicit.
  - A `DCHECK` is modelled as `Except Unit`: the failing branch returns
    `Except.error ()` (a debug-build assertion fire), the passing branch
    `Except.ok` with the function's result.
  - The `unsigned flags_` bitset is a `Nat` with bitwise `|||` / `&&&`,
    exactly as `SetFlag` / `GetFlag` compute it.
-/

namespace V8

/-- `Code::Kind` discriminator (the header uses `Code::OPTIMIZED_FUNCTION`,
`Code::WASM_FUNCTION` and treats everything else as stub/builtin kinds).
The enum itself lives outside this header; the listed representative kinds
follow the spec's `{OptimizedFunction, WasmFunction, OtherStub/Builtin}`. -/
inductive CodeKind where
  | OPTIMIZED_FUNCTION
  | BYTECODE_HANDLER
  | STUB
  | BUILTIN
  | REGEXP
  | WASM_FUNCTION
  | JS_TO_WASM_FUNCTION
  | WASM_TO_JS_FUNCTION
  deriving DecidableEq, Repr

/-- The `FLAGS(V)` registry of the header: 23 boolean configuration flags,
each with its declared bit position (the third macro argument). -/
inductive Flag where
  | FunctionContextSpecializing
  | Inlining
  | DisableFutureOptimization
  | Splitting
  | SourcePositions
  | BailoutOnUninitialized
  | LoopPeeling
  | UntrustedCodeMitigations
  | SwitchJumpTable
  | CalledWithCodeStartRegister
  | PoisonRegisterArguments
  | AllocationFolding
  | AnalyzeEnvironmentLiveness
  | TraceTurboJson
  | TraceTurboGraph
  | TraceTurboScheduled
  | TraceTurboAllocation
  | TraceHeapBroker
  | WasmRuntimeExceptionSupport
  | TurboControlFlowAwareAllocation
  | TurboPreprocessRanges
  | ConcurrentInlining
  | NativeContextIndependent
  deriving DecidableEq, Repr, Fintype

/-- The bit position assigned to each flag in the `FLAGS(V)` table. -/
def flagBit : Flag → Nat
  | .FunctionContextSpecializing => 0
  | .Inlining => 1
  | .DisableFutureOptimization => 2
  | .Splitting => 3
  | .SourcePositions => 4
  | .BailoutOnUninitialized => 5
  | .LoopPeeling => 6
  | .UntrustedCodeMitigations => 7
  | .SwitchJumpTable => 8
  | .CalledWithCodeStartRegister => 9
  | .PoisonRegisterArguments => 10
  | .AllocationFolding => 11
  | .AnalyzeEnvironmentLiveness => 12
  | .TraceTurboJson => 13
  | .TraceTurboGraph => 14
  | .TraceTurboScheduled => 15
  | .TraceTurboAllocation => 16
  | .TraceHeapBroker => 17
  | .WasmRuntimeExceptionSupport => 18
  | .TurboControlFlowAwareAllocation => 19
  | .TurboPreprocessRanges => 20
  | .ConcurrentInlining => 21
  | .NativeContextIndependent => 22

/-- `DEF_ENUM`: each `Flag` enumerator has value `1 << Bit`. -/
def flagValue (f : Flag) : Nat := 2 ^ flagBit f

/-- `BailoutReason` enum (defined outside this header): `kNoReason` is the
default, the remaining reasons are abstracted as `kUnknown` plus a numbered
family. -/
inductive BailoutReason where
  | kNoReason
  | kUnknown
  | kOther (n : Nat)
  deriving DecidableEq, Repr

/-- `BailoutId` (defined outside this header): an integer bytecode offset
with a distinguished `None` sentinel, queried via `IsNone`. -/
structure BailoutId where
  id : Int
  deriving DecidableEq, Repr

/-- `BailoutId::None()`, the "not an OSR compile" sentinel. -/
def BailoutId.NoneId : BailoutId := ⟨-1⟩

/-- `BailoutId::IsNone()`. -/
def BailoutId.IsNone (b : BailoutId) : Bool := b == BailoutId.NoneId

/-- `InliningPosition`: a source position plus the integer id assigned at
registration time. -/
structure InliningPosition where
  position : Nat
  inlined_function_id : Int
  deriving DecidableEq, Repr

/-- `OptimizedCompilationInfo::InlinedFunctionHolder` (handles modelled as
numeric identities). -/
structure InlinedFunctionHolder where
  shared_info : Nat
  bytecode_array : Nat
  position : InliningPosition
  deriving DecidableEq, Repr

/-- Header: `RegisterInlinedFunctionId` stores the id into
`position.inlined_function_id`. -/
def InlinedFunctionHolder.RegisterInlinedFunctionId
    (h : InlinedFunctionHolder) (inlined_function_id : Nat) :
    InlinedFunctionHolder :=
  { h with position :=
      { h.position with inlined_function_id := Int.ofNat inlined_function_id } }

/-- The descriptor's data members, translated field by field from the private
section of the header (zone, tick counter and tracing metadata, which no
claim touches, are elided; handles are numeric identities, `unique_ptr`
is `Option Nat`). -/
structure OptimizedCompilationInfo where
  flags_ : Nat
  code_kind_ : CodeKind
  builtin_index_ : Int
  bytecode_array_ : Option Nat
  shared_info_ : Option Nat
  closure_ : Option Nat
  code_ : Option Nat
  osr_offset_ : BailoutId
  bailout_reason_ : BailoutReason
  inlined_functions_ : List InlinedFunctionHolder
  optimization_id_ : Int
  inlined_bytecode_size_ : Nat
  osr_frame_ : Option Nat
  debug_name_ : String
  ph_ : Option Nat
  deriving DecidableEq, Repr

namespace OptimizedCompilationInfo

/-- `static constexpr int kNoOptimizationId = -1;` -/
def kNoOptimizationId : Int := -1

/-- Header (private): `void SetFlag(Flag flag) { flags_ |= flag; }` -/
def SetFlag (s : OptimizedCompilationInfo) (flag : Flag) :
    OptimizedCompilationInfo :=
  { s with flags_ := s.flags_ ||| flagValue flag }

/-- Header (private): `bool GetFlag(Flag flag) const { return (flags_ & flag) != 0; }` -/
def GetFlag (s : OptimizedCompilationInfo) (flag : Flag) : Bool :=
  decide (s.flags_ &&& flagValue flag ≠ 0)

/-- Header: `Code::Kind code_kind() const { return code_kind_; }` -/
def code_kind (s : OptimizedCompilationInfo) : CodeKind := s.code_kind_

/-- Header: `bool is_osr() const { return !osr_offset_.IsNone(); }` -/
def is_osr (s : OptimizedCompilationInfo) : Bool := ! s.osr_offset_.IsNone

/-- Header: `BailoutId osr_offset() const { return osr_offset_; }` -/
def osr_offset (s : OptimizedCompilationInfo) : BailoutId := s.osr_offset_

/-- Header: `JavaScriptFrame* osr_frame() const { return osr_frame_; }` -/
def osr_frame (s : OptimizedCompilationInfo) : Option Nat := s.osr_frame_

/-- Header: `BailoutReason bailout_reason() const { return bailout_reason_; }` -/
def bailout_reason (s : OptimizedCompilationInfo) : BailoutReason :=
  s.bailout_reason_

/-- Header: `bool IsOptimizing() const { return code_kind() == Code::OPTIMIZED_FUNCTION; }` -/
def IsOptimizing (s : OptimizedCompilationInfo) : Bool :=
  s.code_kind == CodeKind.OPTIMIZED_FUNCTION

/-- Header: `bool IsWasm() const { return code_kind() == Code::WASM_FUNCTION; }` -/
def IsWasm (s : OptimizedCompilationInfo) : Bool :=
  s.code_kind == CodeKind.WASM_FUNCTION

/-- Header: `IsNotOptimizedFunctionOrWasmFunction` compares `code_kind()`
against both kinds. -/
def IsNotOptimizedFunctionOrWasmFunction (s : OptimizedCompilationInfo) : Bool :=
  s.code_kind != CodeKind.OPTIMIZED_FUNCTION &&
    s.code_kind != CodeKind.WASM_FUNCTION

/-- Header: `SetOptimizingForOsr` asserts `DCHECK(IsOptimizing())` and then
assigns `osr_offset_` and `osr_frame_` in one body. -/
def SetOptimizingForOsr (s : OptimizedCompilationInfo) (osr_offset : BailoutId)
    (osr_frame : Nat) : Except Unit OptimizedCompilationInfo :=
  if s.IsOptimizing then
    Except.ok { s with osr_offset_ := osr_offset, osr_frame_ := some osr_frame }
  else
    Except.error ()

/-- Header: `int optimization_id() const { DCHECK(IsOptimizing()); return optimization_id_; }` -/
def optimization_id (s : OptimizedCompilationInfo) : Except Unit Int :=
  if s.IsOptimizing then Except.ok s.optimization_id_ else Except.error ()

/-- Header: `void SetCode(Handle<Code> code) { code_ = code; }` -/
def SetCode (s : OptimizedCompilationInfo) (code : Nat) :
    OptimizedCompilationInfo :=
  { s with code_ := some code }

/-- Header: `void set_builtin_index(int32_t index) { builtin_index_ = index; }` -/
def set_builtin_index (s : OptimizedCompilationInfo) (index : Int) :
    OptimizedCompilationInfo :=
  { s with builtin_index_ := index }

/-- Header: `void set_inlined_bytecode_size(unsigned size)`. -/
def set_inlined_bytecode_size (s : OptimizedCompilationInfo) (size : Nat) :
    OptimizedCompilationInfo :=
  { s with inlined_bytecode_size_ := size }

/-- Header: `std::unique_ptr<PersistentHandles> DetachPersistentHandles() { return std::move(ph_); }`
— a plain move with no assertion: the returned value is whatever `ph_` held
(possibly null) and `ph_` is left null. -/
def DetachPersistentHandles (s : OptimizedCompilationInfo) :
    Option Nat × OptimizedCompilationInfo :=
  (s.ph_, { s with ph_ := none })

/-- Modelled from the spec: the body of `set_persistent_handles` is in the
missing `.cc`.  Spec §4.2 `attachBundle(bundle)`: "installs an
exclusively-owned reference bundle into the descriptor; fails (programmer
error) if one is already installed". -/
def set_persistent_handles (s : OptimizedCompilationInfo)
    (persistent_handles : Nat) : Except Unit OptimizedCompilationInfo :=
  if s.ph_.isSome then Except.error ()
  else Except.ok { s with ph_ := some persistent_handles }

/-- Modelled from the spec: the body of `AbortOptimization` is in the missing
`.cc`.  Spec §4.5: "records the reason; if the job is an optimizing-function
job, additionally raises the disable-future-optimization flag for that
function". -/
def AbortOptimization (s : OptimizedCompilationInfo) (reason : BailoutReason) :
    OptimizedCompilationInfo :=
  if s.IsOptimizing then
    ({ s with bailout_reason_ := reason }).SetFlag Flag.DisableFutureOptimization
  else
    { s with bailout_reason_ := reason }

/-- Modelled from the spec: the body of `RetryOptimization` is in the missing
`.cc`.  Spec §4.5: "records the reason but does not disable future
optimization". -/
def RetryOptimization (s : OptimizedCompilationInfo) (reason : BailoutReason) :
    OptimizedCompilationInfo :=
  { s with bailout_reason_ := reason }

/-- Modelled from the spec: the body of `AddInlinedFunction` is in the missing
`.cc`.  Spec §4.3: "appends a new holder, assigns it the next sequential id
(list size before the append), and returns that id"; the assignment goes
through the header's `RegisterInlinedFunctionId`. -/
def AddInlinedFunction (s : OptimizedCompilationInfo) (inlined_function : Nat)
    (inlined_bytecode : Nat) (pos : Nat) : Int × OptimizedCompilationInfo :=
  let id := s.inlined_functions_.length
  let holder : InlinedFunctionHolder :=
    { shared_info := inlined_function, bytecode_array := inlined_bytecode,
      position := { position := pos, inlined_function_id := -1 } }
  let holder := holder.RegisterInlinedFunctionId id
  (Int.ofNat id, { s with inlined_functions_ := s.inlined_functions_ ++ [holder] })

/-- Modelled from the spec: the optimizing-mode constructor body is in the
missing `.cc`.  It fixes `code_kind_` to `OPTIMIZED_FUNCTION`, stores the
shared-info and closure handles, takes a fresh non-negative
`optimization_id_` from the isolate's counter (passed here explicitly as
`next_optimization_id`), and leaves the remaining members at their header
default initializers. -/
def mkOptimizing (shared : Nat) (closure : Nat)
    (native_context_independent : Bool) (next_optimization_id : Nat) :
    OptimizedCompilationInfo :=
  let s : OptimizedCompilationInfo :=
    { flags_ := 0, code_kind_ := CodeKind.OPTIMIZED_FUNCTION,
      builtin_index_ := -1, bytecode_array_ := none,
      shared_info_ := some shared, closure_ := some closure, code_ := none,
      osr_offset_ := BailoutId.NoneId, bailout_reason_ := BailoutReason.kNoReason,
      inlined_functions_ := [], optimization_id_ := Int.ofNat next_optimization_id,
      inlined_bytecode_size_ := 0, osr_frame_ := none, debug_name_ := "",
      ph_ := none }
  if native_context_independent then s.SetFlag Flag.NativeContextIndependent else s

/-- Modelled from the spec: the stub/Wasm/testing-mode constructor body is in
the missing `.cc`.  It stores the debug name and the given code kind and sets
`optimization_id_` to the `kNoOptimizationId` sentinel; all other members
keep their header default initializers. -/
def mkStub (debug_name : String) (code_kind : CodeKind) :
    OptimizedCompilationInfo :=
  { flags_ := 0, code_kind_ := code_kind, builtin_index_ := -1,
    bytecode_array_ := none, shared_info_ := none, closure_ := none,
    code_ := none, osr_offset_ := BailoutId.NoneId,
    bailout_reason_ := BailoutReason.kNoReason, inlined_functions_ := [],
    optimization_id_ := kNoOptimizationId, inlined_bytecode_size_ := 0,
    osr_frame_ := none, debug_name_ := debug_name, ph_ := none }

/-- `DEF_GETTER`: each generated getter runs `DCHECK(FlagGetIsValid(kCamel))`
and then `return GetFlag(kCamel)`.  The validity predicate is declared in the
header but defined in the missing `.cc`, so it is a parameter here, keyed —
as spec §4.1 describes — by the flag and the job's code kind. -/
def flagGetChecked (FlagGetIsValid : Flag → CodeKind → Bool) (flag : Flag)
    (s : OptimizedCompilationInfo) : Except Unit Bool :=
  if FlagGetIsValid flag s.code_kind then Except.ok (s.GetFlag flag)
  else Except.error ()

/-- `DEF_SETTER`: each generated setter runs `DCHECK(FlagSetIsValid(kCamel))`
and then `SetFlag(kCamel)`; the validity predicate is a parameter as in
`flagGetChecked`. -/
def flagSetChecked (FlagSetIsValid : Flag → CodeKind → Bool) (flag : Flag)
    (s : OptimizedCompilationInfo) : Except Unit OptimizedCompilationInfo :=
  if FlagSetIsValid flag s.code_kind then Except.ok (s.SetFlag flag)
  else Except.error ()

/-- The mutating operations of the descriptor's public interface, reified so
that "any later operation" can be quantified over (used for the monotonicity
of the disable-future-optimization flag). -/
inductive Op where
  | opSetFlag (flag : Flag)
  | opAbort (reason : BailoutReason)
  | opRetry (reason : BailoutReason)
  | opAddInlined (shared : Nat) (bytecode : Nat) (pos : Nat)
  | opSetOsr (off : BailoutId) (frame : Nat)
  | opAttach (bundle : Nat)
  | opDetach
  | opSetCode (code : Nat)
  | opSetBuiltinIndex (i : Int)
  | opSetInlinedBytecodeSize (n : Nat)
  deriving DecidableEq, Repr

/-- Run one reified operation on a descriptor.  Operations whose embedding is
`Except` (a `DCHECK` inside) leave the state unchanged on the error branch:
in a debug build execution would stop there, so no state change happens
either way. -/
def step (s : OptimizedCompilationInfo) : Op → OptimizedCompilationInfo
  | .opSetFlag f => s.SetFlag f
  | .opAbort r => s.AbortOptimization r
  | .opRetry r => s.RetryOptimization r
  | .opAddInlined a b p => (s.AddInlinedFunction a b p).2
  | .opSetOsr off fr =>
      match s.SetOptimizingForOsr off fr with
      | Except.ok t => t
      | Except.error _ => s
  | .opAttach b =>
      match s.set_persistent_handles b with
      | Except.ok t => t
      | Except.error _ => s
  | .opDetach => s.DetachPersistentHandles.2
  | .opSetCode c => s.SetCode c
  | .opSetBuiltinIndex i => s.set_builtin_index i
  | .opSetInlinedBytecodeSize n => s.set_inlined_bytecode_size n

/-- Run a whole sequence of `AddInlinedFunction` calls, collecting the
returned inlining ids in call order. -/
def addInlinedCalls (s : OptimizedCompilationInfo) :
    List (Nat × Nat × Nat) → List Int × OptimizedCompilationInfo
  | [] => ([], s)
  | (a, b, p) :: rest =>
      let r := s.AddInlinedFunction a b p
      let rr := addInlinedCalls r.2 rest
      (r.1 :: rr.1, rr.2)

/-- The ids stored in the inlining ledger, in ledger order. -/
def ledgerIds (s : OptimizedCompilationInfo) : List Int :=
  s.inlined_functions_.map (fun h => h.position.inlined_function_id)

end OptimizedCompilationInfo

open OptimizedCompilationInfo

/-- `GetFlag` tests exactly the flag's declared bit of the `flags_` bitset. -/
theorem GetFlag_eq_testBit (s : OptimizedCompilationInfo) (f : Flag) :
    s.GetFlag f = s.flags_.testBit (flagBit f) := by
  unfold OptimizedCompilationInfo.GetFlag flagValue
  rw [Nat.and_two_pow]
  cases h : s.flags_.testBit (flagBit f) <;>
    simp [h, (Nat.two_pow_pos (flagBit f)).ne']

/-- The 23 flag enumerators sit on pairwise distinct bit positions. -/
theorem flagBit_inj (f g : Flag) (h : f ≠ g) : flagBit f ≠ flagBit g := by
  revert h
  revert f g
  decide

/-- Every declared bit position is below 23. -/
theorem flagBit_lt (f : Flag) : flagBit f < 23 := by
  cases f <;> decide

/-- `SetFlag` turns the flag's own bit on. -/
theorem GetFlag_SetFlag_self (s : OptimizedCompilationInfo) (f : Flag) :
    (s.SetFlag f).GetFlag f = true := by
  rw [GetFlag_eq_testBit]
  show (s.flags_ ||| flagValue f).testBit (flagBit f) = true
  rw [Nat.testBit_lor]
  unfold flagValue
  rw [Nat.testBit_two_pow_self]
  exact Bool.or_true _

/-- `SetFlag` leaves every other flag's bit alone. -/
theorem GetFlag_SetFlag_other (s : OptimizedCompilationInfo) (f g : Flag)
    (h : f ≠ g) : (s.SetFlag f).GetFlag g = s.GetFlag g := by
  rw [GetFlag_eq_testBit, GetFlag_eq_testBit]
  show (s.flags_ ||| flagValue f).testBit (flagBit g) = s.flags_.testBit (flagBit g)
  rw [Nat.testBit_lor]
  unfold flagValue
  rw [Nat.testBit_two_pow_of_ne (flagBit_inj f g h)]
  exact Bool.or_false _

/-- A set flag stays set across `SetFlag` of any flag. -/
theorem GetFlag_SetFlag_mono (s : OptimizedCompilationInfo) (f g : Flag)
    (h : s.GetFlag g = true) : (s.SetFlag f).GetFlag g = true := by
  rw [GetFlag_eq_testBit] at h ⊢
  show (s.flags_ ||| flagValue f).testBit (flagBit g) = true
  rw [Nat.testBit_lor, h]
  exact Bool.true_or _

/-- `AbortOptimization` either leaves `flags_` alone or runs one `SetFlag`. -/
theorem AbortOptimization_flags (s : OptimizedCompilationInfo)
    (r : BailoutReason) (g : Flag) (h : s.GetFlag g = true) :
    (s.AbortOptimization r).GetFlag g = true := by
  unfold OptimizedCompilationInfo.AbortOptimization
  have hbase : ({ s with bailout_reason_ := r } :
      OptimizedCompilationInfo).GetFlag g = true := h
  split
  · exact GetFlag_SetFlag_mono _ _ _ hbase
  · exact hbase

/-- A successful `SetOptimizingForOsr` does not touch the flag bitset. -/
theorem SetOptimizingForOsr_flags (s t : OptimizedCompilationInfo)
    (off : BailoutId) (fr : Nat)
    (h : s.SetOptimizingForOsr off fr = Except.ok t) : t.flags_ = s.flags_ := by
  unfold OptimizedCompilationInfo.SetOptimizingForOsr at h
  split at h
  · cases h
    rfl
  · exact Except.noConfusion h

/-- A successful `set_persistent_handles` does not touch the flag bitset. -/
theorem set_persistent_handles_flags (s t : OptimizedCompilationInfo) (b : Nat)
    (h : s.set_persistent_handles b = Except.ok t) : t.flags_ = s.flags_ := by
  unfold OptimizedCompilationInfo.set_persistent_handles at h
  split at h
  · exact Except.noConfusion h
  · cases h
    rfl

/-- No reified operation ever clears a set flag. -/
theorem step_preserves_flag (s : OptimizedCompilationInfo) (op : Op) (g : Flag)
    (h : s.GetFlag g = true) : (step s op).GetFlag g = true := by
  cases op with
  | opSetFlag f => exact GetFlag_SetFlag_mono _ _ _ h
  | opAbort r => exact AbortOptimization_flags _ _ _ h
  | opRetry r => exact h
  | opAddInlined a b p => exact h
  | opSetOsr off fr =>
      show (match s.SetOptimizingForOsr off fr with
        | Except.ok t => t
        | Except.error _ => s).GetFlag g = true
      split
      · rename_i t heq
        rw [GetFlag_eq_testBit, SetOptimizingForOsr_flags s t off fr heq,
          ← GetFlag_eq_testBit]
        exact h
      · exact h
  | opAttach b =>
      show (match s.set_persistent_handles b with
        | Except.ok t => t
        | Except.error _ => s).GetFlag g = true
      split
      · rename_i t heq
        rw [GetFlag_eq_testBit, set_persistent_handles_flags s t b heq,
          ← GetFlag_eq_testBit]
        exact h
      · exact h
  | opDetach => exact h
  | opSetCode c => exact h
  | opSetBuiltinIndex i => exact h
  | opSetInlinedBytecodeSize n => exact h

/-- A set flag survives any sequence of reified operations. -/
theorem run_preserves_flag (ops : List Op) :
    ∀ s : OptimizedCompilationInfo, ∀ g : Flag, s.GetFlag g = true →
      (List.foldl step s ops).GetFlag g = true := by
  induction ops with
  | nil => intro s g h; exact h
  | cons op rest ih =>
      intro s g h
      exact ih (step s op) g (step_preserves_flag s op g h)

/-- One `AddInlinedFunction` call returns the ledger size before the append
and appends exactly the one holder, already carrying that id. -/
theorem AddInlinedFunction_step (s : OptimizedCompilationInfo) (a b p : Nat) :
    (s.AddInlinedFunction a b p).1 = Int.ofNat s.inlined_functions_.length ∧
    (s.AddInlinedFunction a b p).2.inlined_functions_ =
      s.inlined_functions_ ++
        [{ shared_info := a, bytecode_array := b,
           position := ⟨p, Int.ofNat s.inlined_functions_.length⟩ }] := by
  constructor <;> rfl

/-- `AddInlinedFunction` appends the pre-append ledger size to the id list. -/
theorem ledgerIds_AddInlinedFunction (s : OptimizedCompilationInfo)
    (a b p : Nat) :
    ledgerIds (s.AddInlinedFunction a b p).2 =
      ledgerIds s ++ [Int.ofNat s.inlined_functions_.length] := by
  unfold OptimizedCompilationInfo.ledgerIds
  rw [(AddInlinedFunction_step s a b p).2]
  simp

/-- Running a sequence of `AddInlinedFunction` calls returns the consecutive
ids starting at the current ledger size, and appends exactly those ids to the
ledger, in order. -/
theorem addInlinedCalls_spec (args : List (Nat × Nat × Nat)) :
    ∀ s : OptimizedCompilationInfo,
      (addInlinedCalls s args).1 =
        (List.range args.length).map
          (fun n => Int.ofNat (s.inlined_functions_.length + n)) ∧
      ledgerIds (addInlinedCalls s args).2 =
        ledgerIds s ++
          (List.range args.length).map
            (fun n => Int.ofNat (s.inlined_functions_.length + n)) := by
  induction args with
  | nil =>
      intro s
      constructor <;> simp [OptimizedCompilationInfo.addInlinedCalls]
  | cons hd rest ih =>
      intro s
      obtain ⟨a, b, p⟩ := hd
      have hlen : (s.AddInlinedFunction a b p).2.inlined_functions_.length
          = s.inlined_functions_.length + 1 := by
        rw [(AddInlinedFunction_step s a b p).2]
        simp
      obtain ⟨ih1, ih2⟩ := ih (s.AddInlinedFunction a b p).2
      have hsh : (fun n => Int.ofNat (s.inlined_functions_.length + 1 + n))
          = (fun n => Int.ofNat (s.inlined_functions_.length + (n + 1))) := by
        funext n
        congr 1
        omega
      constructor
      · show (s.AddInlinedFunction a b p).1 ::
            (addInlinedCalls (s.AddInlinedFunction a b p).2 rest).1 = _
        rw [ih1, hlen, hsh, (AddInlinedFunction_step s a b p).1]
        simp only [List.length_cons, List.range_succ_eq_map, List.map_cons,
          List.map_map]
        congr 1
      · show ledgerIds (addInlinedCalls (s.AddInlinedFunction a b p).2 rest).2 = _
        rw [ih2, hlen, hsh, ledgerIds_AddInlinedFunction]
        simp only [List.length_cons, List.range_succ_eq_map, List.map_cons,
          List.map_map, List.append_assoc, List.singleton_append]
        congr 1

/-- `SetFlag` is idempotent: setting a bit that is already set is a no-op. -/
theorem SetFlag_idem (s : OptimizedCompilationInfo) (f : Flag) :
    (s.SetFlag f).SetFlag f = s.SetFlag f := by
  simp [OptimizedCompilationInfo.SetFlag, Nat.lor_assoc, Nat.or_self]

/-- Aborting twice with the same reason is the same as aborting once. -/
theorem AbortOptimization_idem (s : OptimizedCompilationInfo)
    (r : BailoutReason) :
    (s.AbortOptimization r).AbortOptimization r = s.AbortOptimization r := by
  cases hk : s.code_kind_ <;>
    simp [OptimizedCompilationInfo.AbortOptimization,
      OptimizedCompilationInfo.IsOptimizing, OptimizedCompilationInfo.code_kind,
      OptimizedCompilationInfo.SetFlag, hk, Nat.lor_assoc, Nat.or_self]

/-- C1: after `AbortOptimization(r)`, `bailout_reason()` returns `r` and, when
the descriptor is an optimizing-function job (`code_kind_` is
`OPTIMIZED_FUNCTION`), the disable-future-optimization flag is set; after
`RetryOptimization(r)`, `bailout_reason()` returns `r` and the
disable-future-optimization flag keeps the value it had before the call. -/
theorem C1_abort_retry (s : OptimizedCompilationInfo) (r : BailoutReason) :
    (s.AbortOptimization r).bailout_reason = r ∧
    (s.code_kind_ = CodeKind.OPTIMIZED_FUNCTION →
      (s.AbortOptimization r).GetFlag Flag.DisableFutureOptimization = true) ∧
    (s.RetryOptimization r).bailout_reason = r ∧
    (s.RetryOptimization r).GetFlag Flag.DisableFutureOptimization =
      s.GetFlag Flag.DisableFutureOptimization := by
  refine ⟨?_, ?_, rfl, rfl⟩
  · unfold OptimizedCompilationInfo.AbortOptimization
    split
    · rfl
    · rfl
  · intro h
    have hopt : s.IsOptimizing = true := by
      simp [OptimizedCompilationInfo.IsOptimizing,
        OptimizedCompilationInfo.code_kind, h]
    unfold OptimizedCompilationInfo.AbortOptimization
    rw [hopt]
    exact GetFlag_SetFlag_self _ _

/-- C1 witness: aborting a concrete optimizing job with `kUnknown` raises the
disable-future-optimization flag. -/
theorem C1_witness :
    ((mkOptimizing 1 2 false 0).AbortOptimization
      BailoutReason.kUnknown).GetFlag Flag.DisableFutureOptimization = true :=
  (C1_abort_retry (mkOptimizing 1 2 false 0) BailoutReason.kUnknown).2.1 rfl

/-- C2 counterexample: the claim says a second `DetachPersistentHandles`
without an intervening attach is rejected; the header's
`DetachPersistentHandles` is an unchecked `std::move(ph_)`, so on a concrete
descriptor the first detach after an attach yields the attached bundle and
the second detach succeeds as well, yielding the null bundle — no rejection
happens. -/
theorem C2_counterexample :
    ((mkStub "c2" CodeKind.STUB).set_persistent_handles 7).map
        (fun t => (t.DetachPersistentHandles.1,
          t.DetachPersistentHandles.2.DetachPersistentHandles.1))
      = Except.ok (some 7, none) := rfl

/-- C2 (amended): attaching a bundle and then detaching returns the very same
bundle, and a second attach while one is installed is rejected; but a second
`DetachPersistentHandles` without an intervening attach is not rejected — it
succeeds and returns the null bundle. -/
theorem C2_attach_detach (s t : OptimizedCompilationInfo) (b b2 : Nat)
    (h : s.set_persistent_handles b = Except.ok t) :
    t.DetachPersistentHandles.1 = some b ∧
    t.DetachPersistentHandles.2.DetachPersistentHandles.1 = none ∧
    t.set_persistent_handles b2 = Except.error () := by
  unfold OptimizedCompilationInfo.set_persistent_handles at h
  split at h
  · exact Except.noConfusion h
  · cases h
    exact ⟨rfl, rfl, rfl⟩

/-- C2 witness: the attach-then-detach round trip at a concrete bundle. -/
theorem C2_witness :
    ({ mkStub "c2w" CodeKind.STUB with ph_ := some 9 }
      : OptimizedCompilationInfo).DetachPersistentHandles.1 = some 9 ∧
    ({ mkStub "c2w" CodeKind.STUB with ph_ := some 9 }
      : OptimizedCompilationInfo).DetachPersistentHandles.2.DetachPersistentHandles.1
      = none ∧
    ({ mkStub "c2w" CodeKind.STUB with ph_ := some 9 }
      : OptimizedCompilationInfo).set_persistent_handles 5 = Except.error () :=
  C2_attach_detach (mkStub "c2w" CodeKind.STUB)
    { mkStub "c2w" CodeKind.STUB with ph_ := some 9 } 9 5 rfl

/-- C3: for every validity assignment, flag and code kind, if the flag is
declared invalid for that kind then the generated getter and setter on a
descriptor of that kind stop at the validity check (`Except.error`, the
modelled `DCHECK` fire) and never silently succeed. -/
theorem C3_flag_validity
    (FlagGetIsValid FlagSetIsValid : Flag → CodeKind → Bool) (f : Flag)
    (k : CodeKind) (s : OptimizedCompilationInfo) (hk : s.code_kind_ = k)
    (hg : FlagGetIsValid f k = false) (hs2 : FlagSetIsValid f k = false) :
    flagGetChecked FlagGetIsValid f s = Except.error () ∧
    flagSetChecked FlagSetIsValid f s = Except.error () := by
  subst hk
  constructor <;>
    simp [OptimizedCompilationInfo.flagGetChecked,
      OptimizedCompilationInfo.flagSetChecked,
      OptimizedCompilationInfo.code_kind, hg, hs2]

/-- C3 witness: with a validity table that allows function-context
specialization only for optimizing jobs, accessing it on a stub descriptor is
rejected. -/
theorem C3_witness :
    flagGetChecked
      (fun fl kd => ! (fl == Flag.FunctionContextSpecializing &&
        ! (kd == CodeKind.OPTIMIZED_FUNCTION)))
      Flag.FunctionContextSpecializing (mkStub "c3" CodeKind.STUB)
      = Except.error () ∧
    flagSetChecked
      (fun fl kd => ! (fl == Flag.FunctionContextSpecializing &&
        ! (kd == CodeKind.OPTIMIZED_FUNCTION)))
      Flag.FunctionContextSpecializing (mkStub "c3" CodeKind.STUB)
      = Except.error () :=
  C3_flag_validity
    (fun fl kd => ! (fl == Flag.FunctionContextSpecializing &&
      ! (kd == CodeKind.OPTIMIZED_FUNCTION)))
    (fun fl kd => ! (fl == Flag.FunctionContextSpecializing &&
      ! (kd == CodeKind.OPTIMIZED_FUNCTION)))
    Flag.FunctionContextSpecializing CodeKind.STUB
    (mkStub "c3" CodeKind.STUB) rfl rfl rfl

/-- C4: a descriptor built by the stub/module constructor carries the
sentinel `kNoOptimizationId = -1`; a descriptor built by the optimizing
constructor carries the non-negative id drawn from the isolate's counter, and
two optimizing descriptors built from distinct counter draws have distinct
ids. -/
theorem C4_optimization_id (d : String) (k : CodeKind) (sh cl sh2 cl2 : Nat)
    (nci nci2 : Bool) (c c2 : Nat) (hne : c ≠ c2) :
    (mkStub d k).optimization_id_ = kNoOptimizationId ∧
    kNoOptimizationId = -1 ∧
    (mkOptimizing sh cl nci c).optimization_id_ = Int.ofNat c ∧
    0 ≤ (mkOptimizing sh cl nci c).optimization_id_ ∧
    (mkOptimizing sh cl nci c).optimization_id_ ≠
      (mkOptimizing sh2 cl2 nci2 c2).optimization_id_ := by
  have h1 : ∀ (a b c0 : Nat) (x : Bool),
      (mkOptimizing a b x c0).optimization_id_ = Int.ofNat c0 := by
    intro a b c0 x
    cases x <;> rfl
  refine ⟨rfl, rfl, h1 sh cl c nci, ?_, ?_⟩
  · rw [h1 sh cl c nci]
    exact Int.ofNat_nonneg c
  · rw [h1 sh cl c nci, h1 sh2 cl2 c2 nci2]
    exact fun hcc => hne (Int.ofNat.inj hcc)

/-- C4 witness: two optimizing jobs from counter draws 0 and 1 get distinct
ids, and a concrete stub descriptor gets the sentinel. -/
theorem C4_witness :
    (mkStub "c4" CodeKind.STUB).optimization_id_ = kNoOptimizationId ∧
    (mkOptimizing 1 2 false 0).optimization_id_ ≠
      (mkOptimizing 3 4 true 1).optimization_id_ :=
  ⟨(C4_optimization_id "c4" CodeKind.STUB 1 2 3 4 false true 0 1
      (by decide)).1,
    (C4_optimization_id "c4" CodeKind.STUB 1 2 3 4 false true 0 1
      (by decide)).2.2.2.2⟩

/-- C5: the disable-future-optimization flag is monotonic — once set, no
sequence of interface operations clears it; aborting twice with the same
reason leaves the state identical to one abort, and a subsequent
`RetryOptimization` keeps the flag's value. -/
theorem C5_disable_monotonic (s : OptimizedCompilationInfo)
    (r r2 : BailoutReason) (ops : List Op)
    (h : s.GetFlag Flag.DisableFutureOptimization = true) :
    (List.foldl step s ops).GetFlag Flag.DisableFutureOptimization = true ∧
    (s.AbortOptimization r).AbortOptimization r = s.AbortOptimization r ∧
    ((s.AbortOptimization r).RetryOptimization r2).GetFlag
        Flag.DisableFutureOptimization =
      (s.AbortOptimization r).GetFlag Flag.DisableFutureOptimization :=
  ⟨run_preserves_flag ops s Flag.DisableFutureOptimization h,
    AbortOptimization_idem s r, rfl⟩

/-- C5 witness: on a concrete descriptor with the flag set, a concrete
operation sequence (a retry, a detach and a code publication) leaves the flag
set. -/
theorem C5_witness :
    (List.foldl step
      ((mkOptimizing 1 2 false 0).SetFlag Flag.DisableFutureOptimization)
      [Op.opRetry BailoutReason.kUnknown, Op.opDetach, Op.opSetCode 5]).GetFlag
        Flag.DisableFutureOptimization = true :=
  (C5_disable_monotonic
    ((mkOptimizing 1 2 false 0).SetFlag Flag.DisableFutureOptimization)
    BailoutReason.kUnknown BailoutReason.kUnknown
    [Op.opRetry BailoutReason.kUnknown, Op.opDetach, Op.opSetCode 5]
    (by decide)).1

/-- C6: each `AddInlinedFunction` call returns the ledger size before the
append, appends exactly one holder already carrying that id, and a sequence
of calls on a fresh descriptor returns the gapless ids `0, 1, 2, …` matching
the final ledger order. -/
theorem C6_add_inlined (s : OptimizedCompilationInfo)
    (args : List (Nat × Nat × Nat)) (a b p : Nat)
    (h : s.inlined_functions_ = []) :
    (s.AddInlinedFunction a b p).1 = Int.ofNat s.inlined_functions_.length ∧
    (s.AddInlinedFunction a b p).2.inlined_functions_ =
      s.inlined_functions_ ++
        [{ shared_info := a, bytecode_array := b,
           position := ⟨p, Int.ofNat s.inlined_functions_.length⟩ }] ∧
    (addInlinedCalls s args).1 = (List.range args.length).map Int.ofNat ∧
    ledgerIds (addInlinedCalls s args).2 =
      (List.range args.length).map Int.ofNat := by
  obtain ⟨h1, h2⟩ := addInlinedCalls_spec args s
  have hlen0 : s.inlined_functions_.length = 0 := by
    rw [h]
    rfl
  have hzero : (fun n => Int.ofNat (s.inlined_functions_.length + n))
      = Int.ofNat := by
    funext n
    rw [hlen0]
    congr 1
    omega
  have hled : ledgerIds s = [] := by
    unfold OptimizedCompilationInfo.ledgerIds
    rw [h]
    rfl
  refine ⟨(AddInlinedFunction_step s a b p).1,
    (AddInlinedFunction_step s a b p).2, ?_, ?_⟩
  · rw [h1, hzero]
  · rw [h2, hzero, hled]
    exact List.nil_append _

/-- C6 witness: two calls on a fresh descriptor return the ids 0 and 1. -/
theorem C6_witness :
    (addInlinedCalls (mkStub "c6" CodeKind.STUB) [(1, 2, 3), (4, 5, 6)]).1 =
      (List.range 2).map Int.ofNat :=
  (C6_add_inlined (mkStub "c6" CodeKind.STUB) [(1, 2, 3), (4, 5, 6)]
    0 0 0 rfl).2.2.1

/-- C7: `SetOptimizingForOsr` requires `IsOptimizing()` (under that
precondition its `DCHECK` passes and the call succeeds), and it assigns
`osr_offset_` and `osr_frame_` together in the one call; outside the
precondition the assertion fires. -/
theorem C7_SetOptimizingForOsr (s : OptimizedCompilationInfo)
    (off : BailoutId) (frame : Nat) :
    (s.IsOptimizing = true →
      s.SetOptimizingForOsr off frame =
        Except.ok { s with osr_offset_ := off, osr_frame_ := some frame }) ∧
    (s.IsOptimizing = false →
      s.SetOptimizingForOsr off frame = Except.error ()) := by
  constructor <;> intro h <;>
    simp [OptimizedCompilationInfo.SetOptimizingForOsr, h]

/-- C7 witness: on a concrete optimizing job, marking for OSR succeeds and
writes the offset and the frame together. -/
theorem C7_witness :
    (mkOptimizing 1 2 false 0).SetOptimizingForOsr ⟨7⟩ 3 =
      Except.ok { mkOptimizing 1 2 false 0 with
        osr_offset_ := ⟨7⟩, osr_frame_ := some 3 } :=
  (C7_SetOptimizingForOsr (mkOptimizing 1 2 false 0) ⟨7⟩ 3).1 rfl

/-- C8: `is_osr()` is the negation of `osr_offset_.IsNone()`, and both
constructors initialize `osr_offset_` to the `None` sentinel, so a fresh
descriptor has `is_osr() = false`. -/
theorem C8_is_osr (s : OptimizedCompilationInfo) (d : String) (k : CodeKind)
    (sh cl : Nat) (nci : Bool) (c : Nat) :
    s.is_osr = ! s.osr_offset_.IsNone ∧
    (mkStub d k).osr_offset_ = BailoutId.NoneId ∧
    (mkStub d k).is_osr = false ∧
    (mkOptimizing sh cl nci c).osr_offset_ = BailoutId.NoneId ∧
    (mkOptimizing sh cl nci c).is_osr = false := by
  have hopt : (mkOptimizing sh cl nci c).osr_offset_ = BailoutId.NoneId := by
    cases nci <;> rfl
  refine ⟨rfl, rfl, rfl, hopt, ?_⟩
  show (! (mkOptimizing sh cl nci c).osr_offset_.IsNone) = false
  rw [hopt]
  rfl

/-- C9: the three mode predicates are pure functions of the immutable
`code_kind_` and partition it consistently: `IsOptimizing` holds exactly on
`OPTIMIZED_FUNCTION`, `IsWasm` exactly on `WASM_FUNCTION` (so they are
mutually exclusive), and `IsNotOptimizedFunctionOrWasmFunction` exactly when
both are false. -/
theorem C9_mode_predicates (s : OptimizedCompilationInfo) :
    s.IsOptimizing = decide (s.code_kind_ = CodeKind.OPTIMIZED_FUNCTION) ∧
    s.IsWasm = decide (s.code_kind_ = CodeKind.WASM_FUNCTION) ∧
    (s.IsOptimizing && s.IsWasm) = false ∧
    s.IsNotOptimizedFunctionOrWasmFunction
      = (! s.IsOptimizing && ! s.IsWasm) := by
  cases h : s.code_kind_ <;>
    simp [OptimizedCompilationInfo.IsOptimizing,
      OptimizedCompilationInfo.IsWasm,
      OptimizedCompilationInfo.IsNotOptimizedFunctionOrWasmFunction,
      OptimizedCompilationInfo.code_kind, h] <;>
    decide

/-- C10: the 23 flag enumerators occupy pairwise distinct bit positions
0–22, so setting one flag leaves every other flag's getter unchanged, and
setting the same flag twice equals setting it once. -/
theorem C10_flag_independence (s : OptimizedCompilationInfo) (f g : Flag)
    (hne : f ≠ g) :
    flagBit f ≠ flagBit g ∧
    flagBit f < 23 ∧
    Fintype.card Flag = 23 ∧
    (s.SetFlag f).GetFlag g = s.GetFlag g ∧
    (s.SetFlag f).SetFlag f = s.SetFlag f :=
  ⟨flagBit_inj f g hne, flagBit_lt f, rfl,
    GetFlag_SetFlag_other s f g hne, SetFlag_idem s f⟩

/-- C10 witness: setting `Inlining` on a concrete descriptor leaves
`LoopPeeling` unchanged. -/
theorem C10_witness :
    ((mkStub "ca" CodeKind.STUB).SetFlag Flag.Inlining).GetFlag
        Flag.LoopPeeling
      = (mkStub "ca" CodeKind.STUB).GetFlag Flag.LoopPeeling :=
  (C10_flag_independence (mkStub "ca" CodeKind.STUB) Flag.Inlining
    Flag.LoopPeeling (by decide)).2.2.2.1

end V8
